import Mathlib

/-!
Shallow embedding of `src/main.py` (Zoom Scheduler Bridge).

The program is a FastAPI bridge with pure helpers
(`convert_time_to_iso8601`, `parse_candidate_name`) and three
upstream-calling steps (`get_zoom_access_token`, `create_zoom_meeting`,
`create_scheduler_booking`) composed by the endpoint handler
`create_meeting`.

External effects are modelled explicitly:
* the upstream HTTP responses are supplied by an `Env` record of oracles
  (one per upstream resource), already JSON-decoded into records of
  optional fields, mirroring what `response.json()` followed by `.get`
  observes;
* `dateutil.parser.parse` (an external library) is an oracle
  `parse : String -> Option PyDateTime`;
* `datetime.utcnow()` is the `now : PyDateTime` field of `Env`;
* each step returns, besides its result, the list of network calls it
  issued, so that "no upstream call is attempted" is a statement about
  that trace;
* a raised `HTTPException(status_code, detail)` is the `.error` side of
  an `Except HTTPExceptionM _`; FastAPI turns `.ok` into an HTTP 200
  response and `.error e` into a response with status `e.status_code`
  (function `httpStatus`).

Python string operations are modelled on `List Char` (`String.toList`)
so that every definition evaluates by kernel reduction: membership
`c in s` for a single-character needle is `pyContainsChar`, `len` is
`String.length`, `strip` is `pyStrip`, `split()` is `pyTokens`.
-/

deriving instance DecidableEq for Except

/-- A raised `fastapi.HTTPException`: status code and detail message. -/
structure HTTPExceptionM where
  status_code : Nat
  detail : String
deriving DecidableEq, Repr

/-- HTTP status of the response FastAPI produces: 200 on a normal
return, the exception status on a raised `HTTPException`. -/
def httpStatus {α : Type} : Except HTTPExceptionM α → Nat
  | .ok _ => 200
  | .error e => e.status_code

/-- A naive calendar date-time, as `datetime`/`dateutil` expose it:
year, month, day, hour, minute, second. -/
structure PyDateTime where
  year : Nat
  month : Nat
  day : Nat
  hour : Nat
  minute : Nat
  second : Nat
deriving DecidableEq, Repr

/-- Zero-pad to two digits, as `%m`, `%d`, `%H`, `%M`, `%S` do. -/
def pad2 (n : Nat) : String :=
  if n < 10 then "0" ++ toString n else toString n

/-- Zero-pad to four digits, as `%Y` does. -/
def pad4 (n : Nat) : String :=
  if n < 10 then "000" ++ toString n
  else if n < 100 then "00" ++ toString n
  else if n < 1000 then "0" ++ toString n
  else toString n

/-- `dt.strftime("%Y-%m-%d")`. -/
def strftimeDate (dt : PyDateTime) : String :=
  pad4 dt.year ++ "-" ++ pad2 dt.month ++ "-" ++ pad2 dt.day

/-- `dt.strftime("%H:%M:%S")`. -/
def strftimeTime (dt : PyDateTime) : String :=
  pad2 dt.hour ++ ":" ++ pad2 dt.minute ++ ":" ++ pad2 dt.second

/-- `dt.strftime("%Y-%m-%dT%H:%M:%SZ")` (line 117 of main.py). -/
def strftimeIso (dt : PyDateTime) : String :=
  strftimeDate dt ++ "T" ++ strftimeTime dt ++ "Z"

/-- Python `c in s` for a one-character needle `c`. -/
def pyContainsChar (s : String) (c : Char) : Bool :=
  s.toList.contains c

/-- An ASCII single-quote character, spelled via its code point. -/
def singleQuote : String := String.singleton (Char.ofNat 39)

/-- The detail string of the 400 error raised at main.py lines 120-123. -/
def invalidTimeDetail (time_str : String) : String :=
  "Invalid time format: " ++ time_str ++ ". Use " ++ singleQuote ++ "02:30 PM"
    ++ singleQuote ++ " or " ++ singleQuote ++ "2025-02-01T14:30:00Z" ++ singleQuote

/-- `convert_time_to_iso8601` (main.py lines 85-123).  `parse` is the
`dateutil.parser.parse` oracle (`none` models a raised parse error) and
`now` is `datetime.utcnow()`.  Mirrors the source: if the input contains
both a literal T and a literal Z it is returned unchanged; if it is at
most 10 characters long and contains a colon it is prefixed with today's
UTC date before parsing; otherwise it is parsed as given; a parse
failure raises HTTP 400 with the original string in the detail. -/
def convert_time_to_iso8601 (parse : String → Option PyDateTime)
    (now : PyDateTime) (time_str : String) : Except HTTPExceptionM String :=
  if pyContainsChar time_str 'T' && pyContainsChar time_str 'Z' then
    .ok time_str
  else
    match
      if time_str.length ≤ 10 && pyContainsChar time_str ':' then
        parse (strftimeDate now ++ " " ++ time_str)
      else
        parse time_str
    with
    | some dt => .ok (strftimeIso dt)
    | none => .error ⟨400, invalidTimeDetail time_str⟩

/-- Python `s.strip()` on the character list: drop whitespace from both
ends. -/
def pyStrip (l : List Char) : List Char :=
  ((l.dropWhile Char.isWhitespace).reverse.dropWhile Char.isWhitespace).reverse

/-- Python `s.strip().split()`: split on whitespace runs, no empty
tokens. -/
def pyTokens (s : String) : List String :=
  ((((pyStrip s.toList).splitOnP (fun c => c.isWhitespace)).filter
      (fun t => !t.isEmpty)).map (fun l => ⟨l⟩))

/-- `parse_candidate_name` (main.py lines 126-148).  The three match
arms mirror the source's `len(parts) >= 2` / `== 1` / `else` chain. -/
def parse_candidate_name (candidate_name : String) : String × String :=
  match pyTokens candidate_name with
  | p :: q :: rest => (p, " ".intercalate (q :: rest))
  | [p] => (p, "")
  | [] => ("User", "")

/-- The three environment variables read at main.py lines 30-32; `none`
models an unset variable, `some ""` one set to the empty string. -/
structure Config where
  client_id : Option String
  client_secret : Option String
  account_id : Option String
deriving DecidableEq, Repr

/-- Python truthiness of an optional string, as tested by
`all([...])` (line 166) and `if request.schedule_id` (line 420):
`None` and the empty string are falsy. -/
def pyTruthy : Option String → Bool
  | none => false
  | some s => !s.isEmpty

/-- One upstream network request issued by the bridge. -/
inductive NetCall where
  | tokenCall
  | meetingCall
  | bookingCall
deriving DecidableEq, Repr

/-- The JSON body of a successful upstream meeting-creation response,
restricted to the fields read via `.get` at main.py lines 257-264; a
`none` field is one absent from the response. -/
structure MeetingJson where
  join_url : Option String
  id : Option Int
  password : Option String
  start_time : Option String
  duration : Option Int
  topic : Option String
deriving DecidableEq, Repr

/-- The JSON body of a successful upstream booking-creation response,
restricted to the fields read via `.get` at main.py lines 330-337. -/
structure BookingJson where
  id : Option String
  join_url : Option String
  start_time : Option String
  status : Option String
deriving DecidableEq, Repr

/-- The world the bridge runs in: configuration, one oracle per
upstream resource (`.error msg` is a transport error or non-2xx status,
i.e. a raised `httpx.HTTPError` carrying `msg`; `.ok` the decoded JSON
of a 2xx response — for the OAuth endpoint directly its `access_token`
field), the current UTC time, and the `dateutil` parser. -/
structure Env where
  config : Config
  tokenResult : Except String String
  meetingResult : Except String MeetingJson
  bookingResult : Except String BookingJson
  now : PyDateTime
  parse : String → Option PyDateTime

/-- `get_zoom_access_token` (main.py lines 153-202): if any credential
is missing (falsy), raise HTTP 500 without any network call; otherwise
call the OAuth endpoint and either return the token or wrap the
transport error into an HTTP 500. -/
def get_zoom_access_token (env : Env) :
    Except HTTPExceptionM String × List NetCall :=
  if !(pyTruthy env.config.client_id && pyTruthy env.config.client_secret
      && pyTruthy env.config.account_id) then
    (.error ⟨500, "Zoom credentials not configured"⟩, [])
  else
    match env.tokenResult with
    | .ok tok => (.ok tok, [.tokenCall])
    | .error msg =>
        (.error ⟨500, "Failed to get Zoom access token: " ++ msg⟩, [.tokenCall])

/-- The dict returned by `create_zoom_meeting` (main.py lines 257-264):
each field is the `.get` of the upstream JSON, `none` when absent. -/
structure MeetingDict where
  join_url : Option String
  meeting_id : Option Int
  password : Option String
  start_time : Option String
  duration : Option Int
  topic : Option String
deriving DecidableEq, Repr

/-- `create_zoom_meeting` (main.py lines 207-270): calls the meetings
resource; on a 2xx response extracts the six fields with `.get` (absent
fields becoming `none`, never raising); on `httpx.HTTPError` raises
HTTP 500 wrapping the message.  The name, time and duration arguments
shape only the outbound payload, which the oracle abstracts. -/
def create_zoom_meeting (env : Env) (access_token candidate_name start_time : String)
    (duration : Int) : Except HTTPExceptionM MeetingDict × List NetCall :=
  match env.meetingResult with
  | .ok mj =>
      (.ok ⟨mj.join_url, mj.id, mj.password, mj.start_time, mj.duration, mj.topic⟩,
        [.meetingCall])
  | .error msg =>
      (.error ⟨500, "Failed to create Zoom meeting: " ++ msg⟩, [.meetingCall])

/-- The dict returned by `create_scheduler_booking` (main.py lines
330-337): `email_sent` is the literal `True`, `meeting_link` and
`status` use `.get` defaults, `invitee_email` echoes the argument. -/
structure BookingDict where
  booking_id : Option String
  email_sent : Bool
  meeting_link : String
  scheduled_time : Option String
  status : String
  invitee_email : String
deriving DecidableEq, Repr

/-- `create_scheduler_booking` (main.py lines 273-343). -/
def create_scheduler_booking (env : Env)
    (access_token schedule_id start_time user_email first_name last_name : String) :
    Except HTTPExceptionM BookingDict × List NetCall :=
  match env.bookingResult with
  | .ok bj =>
      (.ok ⟨bj.id, true, bj.join_url.getD "", bj.start_time,
          bj.status.getD "created", user_email⟩,
        [.bookingCall])
  | .error msg =>
      (.error ⟨500, "Failed to create Zoom Scheduler booking: " ++ msg⟩, [.bookingCall])

/-- The pydantic `MeetingResponse` model (main.py lines 48-54): all six
fields are required and non-optional. -/
structure MeetingResponse where
  join_url : String
  meeting_id : String
  password : String
  start_time : String
  duration : Int
  topic : String
deriving DecidableEq, Repr

/-- Python `str(...)` applied to the optional integer `meeting_id`
(main.py line 409): `str(None)` is the string None. -/
def pyStrOptInt : Option Int → String
  | none => "None"
  | some n => toString n

/-- Constructing `MeetingResponse(...)` (main.py lines 407-414) with
values taken from the dict: pydantic validation rejects `None` for the
required `str`/`int` fields, raising a `ValidationError` (modelled as
`.error`); `meeting_id` was already stringified by the caller. -/
def mkMeetingResponse (join_url : Option String) (meeting_id : String)
    (password start_time : Option String) (duration : Option Int)
    (topic : Option String) : Except String MeetingResponse :=
  match join_url, password, start_time, duration, topic with
  | some ju, some pw, some st, some du, some tp =>
      .ok ⟨ju, meeting_id, pw, st, du, tp⟩
  | _, _, _, _, _ => .error "validation error for MeetingResponse"

/-- The pydantic `SchedulerBookingResponse` model (main.py lines 66-73). -/
structure SchedulerBookingResponse where
  booking_id : String
  email_sent : Bool
  meeting_link : String
  scheduled_time : String
  status : String
  invitee_email : String
deriving DecidableEq, Repr

/-- Constructing `SchedulerBookingResponse(...)` (main.py lines
435-442) from the booking dict: `booking_id` and `scheduled_time` came
from `.get` and may be `None`, which pydantic validation rejects. -/
def mkSchedulerBookingResponse (d : BookingDict) :
    Except String SchedulerBookingResponse :=
  match d.booking_id, d.scheduled_time with
  | some bid, some st =>
      .ok ⟨bid, d.email_sent, d.meeting_link, st, d.status, d.invitee_email⟩
  | _, _ => .error "validation error for SchedulerBookingResponse"

/-- The request body of the combined endpoint (main.py lines 40-45). -/
structure CreateMeetingRequest where
  candidate_name : String
  user_email : String
  start_time : String
  duration : Int
  schedule_id : Option String
deriving DecidableEq, Repr

/-- The response body of the combined endpoint (main.py lines 76-80). -/
structure CombinedMeetingResponse where
  meeting : MeetingResponse
  scheduler_booking : Option SchedulerBookingResponse
  workflow_status : String
deriving DecidableEq, Repr

/-- The combined endpoint handler `create_meeting` (main.py lines
364-468).  Steps in source order: normalize the time (a 400 aborts with
no calls); fetch the token; create the meeting; build the
`MeetingResponse` (a `ValidationError` here escapes to the outer
`except Exception` and becomes a 500 Unexpected error); if
`schedule_id` is truthy, attempt the booking — any `HTTPException` or
other exception inside that block (upstream failure or response-model
validation) is swallowed, leaving `scheduler_booking = None` and the
failure workflow tag; finally assemble the combined response. -/
def create_meeting (env : Env) (request : CreateMeetingRequest) :
    Except HTTPExceptionM CombinedMeetingResponse × List NetCall :=
  match convert_time_to_iso8601 env.parse env.now request.start_time with
  | .error e => (.error e, [])
  | .ok iso_start_time =>
    match get_zoom_access_token env with
    | (.error e, c1) => (.error e, c1)
    | (.ok access_token, c1) =>
      match create_zoom_meeting env access_token request.candidate_name
          iso_start_time request.duration with
      | (.error e, c2) => (.error e, c1 ++ c2)
      | (.ok meeting_details, c2) =>
        match mkMeetingResponse meeting_details.join_url
            (pyStrOptInt meeting_details.meeting_id) meeting_details.password
            meeting_details.start_time meeting_details.duration
            meeting_details.topic with
        | .error msg => (.error ⟨500, "Unexpected error: " ++ msg⟩, c1 ++ c2)
        | .ok meeting_response =>
          if pyTruthy request.schedule_id then
            match create_scheduler_booking env access_token
                (request.schedule_id.getD "") iso_start_time request.user_email
                (parse_candidate_name request.candidate_name).1
                (parse_candidate_name request.candidate_name).2 with
            | (.error _, c3) =>
                (.ok ⟨meeting_response, none, "meeting_created_booking_failed"⟩,
                  c1 ++ c2 ++ c3)
            | (.ok booking_details, c3) =>
              match mkSchedulerBookingResponse booking_details with
              | .error _ =>
                  (.ok ⟨meeting_response, none, "meeting_created_booking_failed"⟩,
                    c1 ++ c2 ++ c3)
              | .ok sbr =>
                  (.ok ⟨meeting_response, some sbr, "meeting_with_email"⟩,
                    c1 ++ c2 ++ c3)
          else
            (.ok ⟨meeting_response, none, "meeting_only"⟩, c1 ++ c2)

/-- Whether the booking block (main.py lines 421-453) raises: either
the upstream call fails, or the upstream 2xx body lacks `id` or
`start_time`, making `SchedulerBookingResponse` validation fail. -/
def bookingStepFails (env : Env) : Bool :=
  match env.bookingResult with
  | .error _ => true
  | .ok bj => !(bj.id.isSome && bj.start_time.isSome)

/-! Concrete worlds used to exercise the theorems on closed inputs. -/

/-- A fixed current UTC time, 2026-10-12 09:00:00. -/
def wNow : PyDateTime := ⟨2026, 10, 12, 9, 0, 0⟩

/-- A concrete `dateutil` oracle that recognises today's date combined
with the 12-hour clock time 02:30 PM. -/
def wParse : String → Option PyDateTime :=
  fun s => if s = "2026-10-12 02:30 PM" then some ⟨2026, 10, 12, 14, 30, 0⟩ else none

/-- A fully configured credential set. -/
def wConfig : Config := ⟨some "cid", some "csecret", some "acct"⟩

/-- An upstream meeting JSON with every extracted field present (and no
numeric id, so that its stringification stays literal). -/
def wMeetingJson : MeetingJson :=
  ⟨some "https://zoom.example/j/1", none, some "pw", some "2025-02-01T14:30:00Z",
    some 30, some "Interview with Marcus Chen"⟩

/-- The `MeetingResponse` the orchestrator builds from `wMeetingJson`. -/
def wMeetingResponse : MeetingResponse :=
  ⟨"https://zoom.example/j/1", "None", "pw", "2025-02-01T14:30:00Z", 30,
    "Interview with Marcus Chen"⟩

/-- An upstream booking JSON with every extracted field present. -/
def wBookingJson : BookingJson :=
  ⟨some "bk1", some "https://zoom.example/b/1", some "2025-02-01T14:30:00Z",
    some "confirmed"⟩

/-- World for the suppressed-booking-failure scenario: everything
succeeds except the booking call. -/
def envC1 : Env :=
  ⟨wConfig, .ok "tok", .ok wMeetingJson, .error "upstream 500", wNow, wParse⟩

/-- A combined request supplying a non-empty schedule id. -/
def reqC1 : CreateMeetingRequest :=
  ⟨"Marcus Chen", "client1@gmail.com", "2025-02-01T14:30:00Z", 30, some "sched-1"⟩

/-- World where every upstream step, booking included, succeeds. -/
def envC2 : Env :=
  ⟨wConfig, .ok "tok", .ok wMeetingJson, .ok wBookingJson, wNow, wParse⟩

/-- The combined response produced in `envC2` for `reqC1`. -/
def rC2 : CombinedMeetingResponse :=
  ⟨wMeetingResponse,
    some ⟨"bk1", true, "https://zoom.example/b/1", "2025-02-01T14:30:00Z",
      "confirmed", "client1@gmail.com"⟩,
    "meeting_with_email"⟩

/-- World whose `dateutil` oracle rejects every string. -/
def envC5 : Env :=
  ⟨wConfig, .ok "tok", .ok wMeetingJson, .ok wBookingJson, wNow, fun _ => none⟩

/-- A combined request with a malformed start time. -/
def reqC5 : CreateMeetingRequest :=
  ⟨"Marcus Chen", "client1@gmail.com", "not-a-time", 30, none⟩

/-- World with the client identifier unset. -/
def envC6 : Env :=
  ⟨⟨none, some "csecret", some "acct"⟩, .ok "tok", .ok wMeetingJson,
    .ok wBookingJson, wNow, wParse⟩

/-- World whose upstream meeting JSON is missing every extracted
field. -/
def envC8 : Env :=
  ⟨wConfig, .ok "tok", .ok ⟨none, none, none, none, none, none⟩,
    .error "unused", wNow, wParse⟩

/-- A combined request with no schedule id. -/
def reqC8 : CreateMeetingRequest :=
  ⟨"Marcus Chen", "client1@gmail.com", "2025-02-01T14:30:00Z", 30, none⟩

/-- A combined request whose schedule id is present but empty. -/
def reqC10 : CreateMeetingRequest :=
  ⟨"Marcus Chen", "client1@gmail.com", "2025-02-01T14:30:00Z", 30, some ""⟩

/-! Theorems settling the claims. -/

/-- C3: any input containing both the T and Z marker characters is
returned unchanged by time normalization, for every parser oracle and
every current time — no parsing, validation, or timezone conversion
happens on that path, malformed inputs included. -/
theorem canonical_input_identity (parse : String → Option PyDateTime)
    (now : PyDateTime) (s : String)
    (hT : pyContainsChar s 'T' = true) (hZ : pyContainsChar s 'Z' = true) :
    convert_time_to_iso8601 parse now s = .ok s := by
  unfold convert_time_to_iso8601
  rw [hT, hZ]
  rfl

/-- Closed instance of `canonical_input_identity` at a malformed string
that merely contains both markers, with a parser that rejects
everything. -/
theorem canonical_input_identity_witness :
    pyContainsChar "TZ:#bad" 'T' = true ∧ pyContainsChar "TZ:#bad" 'Z' = true ∧
    convert_time_to_iso8601 (fun _ => none) wNow "TZ:#bad" = .ok "TZ:#bad" :=
  ⟨by decide, by decide,
    canonical_input_identity (fun _ => none) wNow "TZ:#bad" (by decide) (by decide)⟩

/-- C4: a short input (at most 10 characters) containing a colon but not
both the T and Z markers is treated as a bare clock time: today's UTC
calendar date is prepended, the combination is parsed, and the result is
today's date joined by T to the parsed 24-hour time with a Z suffix. -/
theorem bare_clock_time_normalization (parse : String → Option PyDateTime)
    (now : PyDateTime) (s : String) (dt : PyDateTime)
    (hlen : s.length ≤ 10) (hcolon : pyContainsChar s ':' = true)
    (hTZ : (pyContainsChar s 'T' && pyContainsChar s 'Z') = false)
    (hparse : parse (strftimeDate now ++ " " ++ s) = some dt)
    (hy : dt.year = now.year) (hm : dt.month = now.month) (hd : dt.day = now.day) :
    convert_time_to_iso8601 parse now s =
      .ok (strftimeDate now ++ "T" ++ strftimeTime dt ++ "Z") := by
  unfold convert_time_to_iso8601
  rw [hTZ]
  simp only [Bool.false_eq_true, if_false]
  rw [if_pos (by simp [hlen, hcolon]), hparse]
  show Except.ok (strftimeIso dt) =
    Except.ok (strftimeDate now ++ "T" ++ strftimeTime dt ++ "Z")
  unfold strftimeIso strftimeDate
  rw [hy, hm, hd]

/-- Closed instance of `bare_clock_time_normalization`: 02:30 PM becomes
the fixed today 2026-10-12 with time 14:30:00 and Z suffix. -/
theorem bare_clock_time_normalization_witness :
    "02:30 PM".length ≤ 10 ∧
    convert_time_to_iso8601 wParse wNow "02:30 PM" = .ok "2026-10-12T14:30:00Z" := by
  refine ⟨by decide, ?_⟩
  have h := bare_clock_time_normalization wParse wNow "02:30 PM" ⟨2026, 10, 12, 14, 30, 0⟩
    (by decide) (by decide) (by decide) (by decide) rfl rfl rfl
  exact h

/-- C5: when the parser rejects the (possibly date-prefixed) input and
the input is not on the pass-through path, normalization raises HTTP 400
with the original string inside the detail, and the combined endpoint
aborts with that 400 having attempted no upstream call (empty trace). -/
theorem invalid_time_aborts_request (env : Env) (req : CreateMeetingRequest)
    (hTZ : (pyContainsChar req.start_time 'T' && pyContainsChar req.start_time 'Z') = false)
    (hparse : (if req.start_time.length ≤ 10 && pyContainsChar req.start_time ':' then
        env.parse (strftimeDate env.now ++ " " ++ req.start_time)
      else
        env.parse req.start_time) = none) :
    convert_time_to_iso8601 env.parse env.now req.start_time =
      .error ⟨400, invalidTimeDetail req.start_time⟩ ∧
    create_meeting env req = (.error ⟨400, invalidTimeDetail req.start_time⟩, []) ∧
    httpStatus (create_meeting env req).1 = 400 := by
  have hc : convert_time_to_iso8601 env.parse env.now req.start_time =
      .error ⟨400, invalidTimeDetail req.start_time⟩ := by
    unfold convert_time_to_iso8601
    rw [hTZ]
    simp only [Bool.false_eq_true, if_false]
    rw [hparse]
  have hm : create_meeting env req = (.error ⟨400, invalidTimeDetail req.start_time⟩, []) := by
    unfold create_meeting
    rw [hc]
  exact ⟨hc, hm, by rw [hm]; rfl⟩

/-- Closed instance of `invalid_time_aborts_request` at the input
not-a-time with an all-rejecting parser. -/
theorem invalid_time_aborts_request_witness :
    (pyContainsChar "not-a-time" 'T' && pyContainsChar "not-a-time" 'Z') = false ∧
    create_meeting envC5 reqC5 = (.error ⟨400, invalidTimeDetail "not-a-time"⟩, []) ∧
    httpStatus (create_meeting envC5 reqC5).1 = 400 := by
  have h := invalid_time_aborts_request envC5 reqC5 (by decide) (by decide)
  exact ⟨by decide, h.2.1, h.2.2⟩

/-- C6: with any of the three credentials unset, the token step raises
HTTP 500 with the configuration detail message and issues no network
call, and the combined endpoint (once past time normalization) fails the
same way, still with an empty call trace. -/
theorem missing_config_fails_fast (env : Env)
    (h : env.config.client_id = none ∨ env.config.client_secret = none ∨
      env.config.account_id = none) :
    get_zoom_access_token env = (.error ⟨500, "Zoom credentials not configured"⟩, []) ∧
    httpStatus (get_zoom_access_token env).1 = 500 ∧
    (∀ req : CreateMeetingRequest, ∀ iso : String,
      convert_time_to_iso8601 env.parse env.now req.start_time = .ok iso →
      create_meeting env req = (.error ⟨500, "Zoom credentials not configured"⟩, []) ∧
      httpStatus (create_meeting env req).1 = 500) := by
  have hg : get_zoom_access_token env =
      (.error ⟨500, "Zoom credentials not configured"⟩, []) := by
    unfold get_zoom_access_token
    rcases h with h | h | h <;> rw [h] <;> simp [pyTruthy]
  refine ⟨hg, by rw [hg]; rfl, ?_⟩
  intro req iso hconv
  have hm : create_meeting env req = (.error ⟨500, "Zoom credentials not configured"⟩, []) := by
    unfold create_meeting
    rw [hconv, hg]
  exact ⟨hm, by rw [hm]; rfl⟩

/-- Closed instance of `missing_config_fails_fast` with the client
identifier unset. -/
theorem missing_config_fails_fast_witness :
    envC6.config.client_id = none ∧
    get_zoom_access_token envC6 = (.error ⟨500, "Zoom credentials not configured"⟩, []) ∧
    create_meeting envC6 reqC1 = (.error ⟨500, "Zoom credentials not configured"⟩, []) := by
  have h := missing_config_fails_fast envC6 (Or.inl rfl)
  exact ⟨rfl, h.1, (h.2.2 reqC1 "2025-02-01T14:30:00Z" (by decide)).1⟩

/-- C7: the name splitter trims and splits on whitespace runs; with at
least two tokens it returns the first token and the rest joined by
single spaces, with one token that token and an empty last name, with no
tokens the placeholder User; and the four concrete examples evaluate as
stated. -/
theorem name_splitter_spec :
    (∀ name : String, (pyTokens name).length ≥ 2 →
      parse_candidate_name name =
        ((pyTokens name).headD "User", " ".intercalate ((pyTokens name).drop 1))) ∧
    (∀ name : String, (pyTokens name).length = 1 →
      parse_candidate_name name = ((pyTokens name).headD "User", "")) ∧
    (∀ name : String, (pyTokens name).length = 0 →
      parse_candidate_name name = ("User", "")) ∧
    parse_candidate_name "Marcus Chen" = ("Marcus", "Chen") ∧
    parse_candidate_name "Madonna" = ("Madonna", "") ∧
    parse_candidate_name "" = ("User", "") ∧
    parse_candidate_name "Ana Maria Lopez" = ("Ana", "Maria Lopez") := by
  refine ⟨?_, ?_, ?_, by decide, by decide, by decide, by decide⟩
  · intro name h
    unfold parse_candidate_name
    cases hp : pyTokens name with
    | nil => rw [hp] at h; exact absurd h (by decide)
    | cons p t =>
      cases t with
      | nil => rw [hp] at h; simp at h
      | cons q rest => simp
  · intro name h
    unfold parse_candidate_name
    cases hp : pyTokens name with
    | nil => rw [hp] at h; exact absurd h (by decide)
    | cons p t =>
      cases t with
      | nil => simp
      | cons q rest => rw [hp] at h; simp at h
  · intro name h
    unfold parse_candidate_name
    cases hp : pyTokens name with
    | nil => simp
    | cons p t =>
      cases t with
      | nil => rw [hp] at h; simp at h
      | cons q rest => rw [hp] at h; simp at h

/-- Closed instance of the general part of `name_splitter_spec` at a
three-token name. -/
theorem name_splitter_spec_witness :
    (pyTokens "Ana Maria Lopez").length ≥ 2 ∧
    parse_candidate_name "Ana Maria Lopez" =
      ((pyTokens "Ana Maria Lopez").headD "User",
        " ".intercalate ((pyTokens "Ana Maria Lopez").drop 1)) :=
  ⟨by decide, name_splitter_spec.1 "Ana Maria Lopez" (by decide)⟩

/-- C9: on any successful upstream booking response, the booking dict
has its email-sent flag set to true unconditionally (whatever the body
contained) and echoes the supplied invitee email. -/
theorem booking_email_flag_unconditional (env : Env) (bj : BookingJson)
    (tok sid st email fn ln : String)
    (h : env.bookingResult = .ok bj) :
    (create_scheduler_booking env tok sid st email fn ln).1 =
      .ok ⟨bj.id, true, bj.join_url.getD "", bj.start_time,
        bj.status.getD "created", email⟩ ∧
    ∃ d : BookingDict,
      (create_scheduler_booking env tok sid st email fn ln).1 = .ok d ∧
      d.email_sent = true ∧ d.invitee_email = email := by
  have hb : (create_scheduler_booking env tok sid st email fn ln).1 =
      .ok ⟨bj.id, true, bj.join_url.getD "", bj.start_time,
        bj.status.getD "created", email⟩ := by
    unfold create_scheduler_booking
    rw [h]
  exact ⟨hb, _, hb, rfl, rfl⟩

/-- Closed instance of `booking_email_flag_unconditional`: even an
upstream body with no status and no link yields email-sent true and the
request email echoed. -/
theorem booking_email_flag_unconditional_witness :
    envC2.bookingResult = .ok wBookingJson ∧
    (create_scheduler_booking envC2 "tok" "sched-1" "2025-02-01T14:30:00Z"
        "client1@gmail.com" "Marcus" "Chen").1 =
      .ok ⟨some "bk1", true, "https://zoom.example/b/1", some "2025-02-01T14:30:00Z",
        "confirmed", "client1@gmail.com"⟩ := by
  have h := booking_email_flag_unconditional envC2 wBookingJson "tok" "sched-1"
    "2025-02-01T14:30:00Z" "client1@gmail.com" "Marcus" "Chen" rfl
  exact ⟨rfl, h.1⟩

/-- The token step never issues a booking call: its trace is empty or a
single token call. -/
theorem token_trace_no_booking (env : Env) :
    NetCall.bookingCall ∉ (get_zoom_access_token env).2 := by
  unfold get_zoom_access_token
  split
  · simp
  · cases env.tokenResult <;> simp

/-- The meeting step's trace is always the single meeting call. -/
theorem meeting_trace_eq (env : Env) (a b c : String) (d : Int) :
    (create_zoom_meeting env a b c d).2 = [NetCall.meetingCall] := by
  unfold create_zoom_meeting
  cases env.meetingResult <;> rfl

/-- If the booking step returns a raised exception, the upstream
booking call failed. -/
theorem bookingStepFails_of_error (env : Env) (tok sid st email fn ln : String)
    (e : HTTPExceptionM) (c : List NetCall)
    (h : create_scheduler_booking env tok sid st email fn ln = (.error e, c)) :
    bookingStepFails env = true := by
  unfold create_scheduler_booking at h
  unfold bookingStepFails
  cases hb : env.bookingResult with
  | ok bj => rw [hb] at h; simp at h
  | error msg => simp

/-- If the booking step returns a dict that fails response-model
validation, the upstream body lacked its id or start time. -/
theorem bookingStepFails_of_mk_error (env : Env) (tok sid st email fn ln : String)
    (bd : BookingDict) (c : List NetCall) (msg : String)
    (h : create_scheduler_booking env tok sid st email fn ln = (.ok bd, c))
    (h2 : mkSchedulerBookingResponse bd = .error msg) :
    bookingStepFails env = true := by
  unfold create_scheduler_booking at h
  unfold bookingStepFails
  cases hb : env.bookingResult with
  | error m => simp
  | ok bj =>
    rw [hb] at h
    simp only [Prod.mk.injEq, Except.ok.injEq] at h
    obtain ⟨hbd, -⟩ := h
    rw [← hbd] at h2
    unfold mkSchedulerBookingResponse at h2
    cases hid : bj.id <;> cases hst : bj.start_time <;>
      rw [hid, hst] at h2 <;> simp_all

/-- If the booking step returns a dict that passes response-model
validation, the upstream body carried both id and start time. -/
theorem bookingStepOk_of_mk_ok (env : Env) (tok sid st email fn ln : String)
    (bd : BookingDict) (c : List NetCall) (sbr : SchedulerBookingResponse)
    (h : create_scheduler_booking env tok sid st email fn ln = (.ok bd, c))
    (h2 : mkSchedulerBookingResponse bd = .ok sbr) :
    bookingStepFails env = false := by
  unfold create_scheduler_booking at h
  unfold bookingStepFails
  cases hb : env.bookingResult with
  | error m => rw [hb] at h; simp at h
  | ok bj =>
    rw [hb] at h
    simp only [Prod.mk.injEq, Except.ok.injEq] at h
    obtain ⟨hbd, -⟩ := h
    rw [← hbd] at h2
    unfold mkSchedulerBookingResponse at h2
    cases hid : bj.id <;> cases hst : bj.start_time <;>
      rw [hid, hst] at h2 <;> simp_all

/-- Inversion of a 200 response of the combined endpoint: it is either
a meeting-only response with a falsy schedule id, a meeting-with-email
response with a truthy schedule id and a fully successful booking step,
or a suppressed-failure response with a truthy schedule id and a failed
booking step. -/
theorem create_meeting_ok_inv (env : Env) (req : CreateMeetingRequest)
    (r : CombinedMeetingResponse) (h : (create_meeting env req).1 = .ok r) :
    (∃ mr, r = ⟨mr, none, "meeting_only"⟩ ∧ pyTruthy req.schedule_id = false) ∨
    (∃ mr sbr, r = ⟨mr, some sbr, "meeting_with_email"⟩ ∧
      pyTruthy req.schedule_id = true ∧ bookingStepFails env = false) ∨
    (∃ mr, r = ⟨mr, none, "meeting_created_booking_failed"⟩ ∧
      pyTruthy req.schedule_id = true ∧ bookingStepFails env = true) := by
  unfold create_meeting at h
  cases hconv : convert_time_to_iso8601 env.parse env.now req.start_time with
  | error e => rw [hconv] at h; simp at h
  | ok iso =>
    rw [hconv] at h
    simp only [] at h
    cases htokp : get_zoom_access_token env with
    | mk tokr c1 =>
      rw [htokp] at h
      cases tokr with
      | error e => simp at h
      | ok tok =>
        simp only [] at h
        cases hmeetp : create_zoom_meeting env tok req.candidate_name iso
            req.duration with
        | mk meetr c2 =>
          rw [hmeetp] at h
          cases meetr with
          | error e => simp at h
          | ok md =>
            simp only [] at h
            cases hmk : mkMeetingResponse md.join_url (pyStrOptInt md.meeting_id)
                md.password md.start_time md.duration md.topic with
            | error msg => rw [hmk] at h; simp at h
            | ok mr =>
              rw [hmk] at h
              simp only [] at h
              by_cases hsid : pyTruthy req.schedule_id = true
              · rw [if_pos hsid] at h
                cases hbookp : create_scheduler_booking env tok
                    (req.schedule_id.getD "") iso req.user_email
                    (parse_candidate_name req.candidate_name).1
                    (parse_candidate_name req.candidate_name).2 with
                | mk bookr c3 =>
                  rw [hbookp] at h
                  cases bookr with
                  | error e =>
                    simp only [Except.ok.injEq] at h
                    exact Or.inr (Or.inr ⟨mr, h.symm, hsid,
                      bookingStepFails_of_error env _ _ _ _ _ _ e c3 hbookp⟩)
                  | ok bd =>
                    simp only [] at h
                    cases hmk2 : mkSchedulerBookingResponse bd with
                    | error msg =>
                      rw [hmk2] at h
                      simp only [Except.ok.injEq] at h
                      exact Or.inr (Or.inr ⟨mr, h.symm, hsid,
                        bookingStepFails_of_mk_error env _ _ _ _ _ _ bd c3 msg
                          hbookp hmk2⟩)
                    | ok sbr =>
                      rw [hmk2] at h
                      simp only [Except.ok.injEq] at h
                      exact Or.inr (Or.inl ⟨mr, sbr, h.symm, hsid,
                        bookingStepOk_of_mk_ok env _ _ _ _ _ _ bd c3 sbr
                          hbookp hmk2⟩)
              · rw [if_neg hsid] at h
                simp only [Except.ok.injEq] at h
                exact Or.inl ⟨mr, h.symm, by simpa using hsid⟩

/-- C2: every 200 response of the combined endpoint has workflow status
meeting-with-email exactly when the booking record is present, has the
suppressed-failure status only when the schedule id was truthy and the
booking step raised, is meeting-only in every other case, and always
draws its status from the fixed three-element set. -/
theorem workflow_status_invariant (env : Env) (req : CreateMeetingRequest)
    (r : CombinedMeetingResponse) (h : (create_meeting env req).1 = .ok r) :
    (r.workflow_status = "meeting_with_email" ↔ r.scheduler_booking.isSome = true) ∧
    (r.workflow_status = "meeting_created_booking_failed" →
      pyTruthy req.schedule_id = true ∧ bookingStepFails env = true) ∧
    (r.workflow_status ≠ "meeting_with_email" →
      r.workflow_status ≠ "meeting_created_booking_failed" →
      r.workflow_status = "meeting_only") ∧
    (r.workflow_status = "meeting_only" ∨ r.workflow_status = "meeting_with_email" ∨
      r.workflow_status = "meeting_created_booking_failed") := by
  rcases create_meeting_ok_inv env req r h with
    ⟨mr, hr, hs⟩ | ⟨mr, sbr, hr, hs, hb⟩ | ⟨mr, hr, hs, hb⟩ <;> subst hr
  · exact ⟨by simp, by simp, by simp, by simp⟩
  · exact ⟨by simp, by simp, by simp, by simp⟩
  · exact ⟨by simp, fun _ => ⟨hs, hb⟩, by simp, by simp⟩

/-- Closed instance of `workflow_status_invariant` in a world where the
booking succeeds. -/
theorem workflow_status_invariant_witness :
    (create_meeting envC2 reqC1).1 = .ok rC2 ∧
    (rC2.workflow_status = "meeting_with_email" ↔ rC2.scheduler_booking.isSome = true) :=
  ⟨by decide, (workflow_status_invariant envC2 reqC1 rC2 (by decide)).1⟩

/-- The combined endpoint's behaviour does not depend on which falsy
schedule id (absent or empty) the request carries. -/
theorem create_meeting_ignores_untruthy_sid (env : Env) (cn ue st : String)
    (du : Int) (sid1 sid2 : Option String)
    (h1 : pyTruthy sid1 = false) (h2 : pyTruthy sid2 = false) :
    create_meeting env ⟨cn, ue, st, du, sid1⟩ =
      create_meeting env ⟨cn, ue, st, du, sid2⟩ := by
  unfold create_meeting
  simp [h1, h2]

/-- With a falsy schedule id, no booking call ever appears in the
combined endpoint's network trace. -/
theorem no_booking_call_untruthy (env : Env) (req : CreateMeetingRequest)
    (h1 : pyTruthy req.schedule_id = false) :
    NetCall.bookingCall ∉ (create_meeting env req).2 := by
  unfold create_meeting
  cases hconv : convert_time_to_iso8601 env.parse env.now req.start_time with
  | error e => simp
  | ok iso =>
    simp only []
    cases htokp : get_zoom_access_token env with
    | mk tokr c1 =>
      have hc1 : NetCall.bookingCall ∉ c1 := by
        have hx := token_trace_no_booking env
        rw [htokp] at hx
        exact hx
      cases tokr with
      | error e => simpa using hc1
      | ok tok =>
        simp only []
        cases hmeetp : create_zoom_meeting env tok req.candidate_name iso
            req.duration with
        | mk meetr c2 =>
          have hc2 : NetCall.bookingCall ∉ c2 := by
            have hx := meeting_trace_eq env tok req.candidate_name iso req.duration
            rw [hmeetp] at hx
            simp only [] at hx
            rw [hx]
            decide
          cases meetr with
          | error e =>
            simp only [List.mem_append]
            intro hcon
            rcases hcon with hcon | hcon
            · exact hc1 hcon
            · exact hc2 hcon
          | ok md =>
            simp only []
            cases hmk : mkMeetingResponse md.join_url (pyStrOptInt md.meeting_id)
                md.password md.start_time md.duration md.topic with
            | error msg =>
              simp only [List.mem_append]
              intro hcon
              rcases hcon with hcon | hcon
              · exact hc1 hcon
              · exact hc2 hcon
            | ok mr =>
              simp only []
              rw [if_neg (by simp [h1])]
              simp only [List.mem_append]
              intro hcon
              rcases hcon with hcon | hcon
              · exact hc1 hcon
              · exact hc2 hcon

/-- C10: a request whose schedule id is present but empty behaves
exactly like one with no schedule id: same full outcome (response and
trace), meeting-only status with no booking record on success, and no
booking call attempted. -/
theorem empty_schedule_id_meeting_only (env : Env) (req : CreateMeetingRequest)
    (h : req.schedule_id = some "") :
    create_meeting env req = create_meeting env
      ⟨req.candidate_name, req.user_email, req.start_time, req.duration, none⟩ ∧
    (∀ r, (create_meeting env req).1 = .ok r →
      r.workflow_status = "meeting_only" ∧ r.scheduler_booking = none) ∧
    NetCall.bookingCall ∉ (create_meeting env req).2 := by
  have h1 : pyTruthy req.schedule_id = false := by rw [h]; rfl
  refine ⟨?_, ?_, no_booking_call_untruthy env req h1⟩
  · exact create_meeting_ignores_untruthy_sid env req.candidate_name req.user_email
      req.start_time req.duration req.schedule_id none h1 rfl
  · intro r hr
    rcases create_meeting_ok_inv env req r hr with
      ⟨mr, hrr, -⟩ | ⟨mr, sbr, hrr, hs, -⟩ | ⟨mr, hrr, hs, -⟩
    · subst hrr; exact ⟨rfl, rfl⟩
    · rw [h1] at hs; exact absurd hs (by simp)
    · rw [h1] at hs; exact absurd hs (by simp)

/-- Closed instance of `empty_schedule_id_meeting_only`: with an empty
schedule id in an otherwise fully successful world, the result equals
the no-schedule-id result and carries meeting-only status. -/
theorem empty_schedule_id_meeting_only_witness :
    reqC10.schedule_id = some "" ∧
    create_meeting envC2 reqC10 = create_meeting envC2 reqC8 ∧
    (create_meeting envC2 reqC10).1 = .ok ⟨wMeetingResponse, none, "meeting_only"⟩ := by
  have h := empty_schedule_id_meeting_only envC2 reqC10 rfl
  exact ⟨rfl, h.1, by decide⟩

/-- C1: when a truthy schedule id is supplied and the upstream booking
call fails, the failure is suppressed: the combined endpoint still
returns HTTP 200, the workflow status is the failure tag, no booking
record is attached, and the meeting record is exactly the one the
meeting-creation step produced. -/
theorem booking_failure_suppressed (env : Env) (req : CreateMeetingRequest)
    (iso tok msg : String) (mj : MeetingJson) (mr : MeetingResponse)
    (hsid : pyTruthy req.schedule_id = true)
    (hconv : convert_time_to_iso8601 env.parse env.now req.start_time = .ok iso)
    (hcfg : (pyTruthy env.config.client_id && pyTruthy env.config.client_secret &&
      pyTruthy env.config.account_id) = true)
    (htok : env.tokenResult = .ok tok)
    (hmj : env.meetingResult = .ok mj)
    (hmr : mkMeetingResponse mj.join_url (pyStrOptInt mj.id) mj.password
      mj.start_time mj.duration mj.topic = .ok mr)
    (hbook : env.bookingResult = .error msg) :
    (create_meeting env req).1 = .ok ⟨mr, none, "meeting_created_booking_failed"⟩ ∧
    httpStatus (create_meeting env req).1 = 200 := by
  have key : (create_meeting env req).1 =
      .ok ⟨mr, none, "meeting_created_booking_failed"⟩ := by
    unfold create_meeting
    rw [hconv]
    simp only []
    have hg : get_zoom_access_token env = (.ok tok, [.tokenCall]) := by
      unfold get_zoom_access_token
      simp [hcfg, htok]
    rw [hg]
    simp only []
    have hcm : create_zoom_meeting env tok req.candidate_name iso req.duration =
        (.ok ⟨mj.join_url, mj.id, mj.password, mj.start_time, mj.duration, mj.topic⟩,
          [.meetingCall]) := by
      unfold create_zoom_meeting
      rw [hmj]
    rw [hcm]
    simp only []
    rw [hmr]
    simp only []
    rw [if_pos hsid]
    have hbk : create_scheduler_booking env tok (req.schedule_id.getD "") iso
        req.user_email (parse_candidate_name req.candidate_name).1
        (parse_candidate_name req.candidate_name).2 =
        (.error ⟨500, "Failed to create Zoom Scheduler booking: " ++ msg⟩,
          [.bookingCall]) := by
      unfold create_scheduler_booking
      rw [hbook]
    rw [hbk]
  exact ⟨key, by rw [key]; rfl⟩

/-- Closed instance of `booking_failure_suppressed`: with a failing
booking upstream, the concrete world still yields 200 with the meeting
unchanged. -/
theorem booking_failure_suppressed_witness :
    pyTruthy reqC1.schedule_id = true ∧
    envC1.bookingResult = .error "upstream 500" ∧
    (create_meeting envC1 reqC1).1 =
      .ok ⟨wMeetingResponse, none, "meeting_created_booking_failed"⟩ ∧
    httpStatus (create_meeting envC1 reqC1).1 = 200 := by
  have h := booking_failure_suppressed envC1 reqC1 "2025-02-01T14:30:00Z" "tok"
    "upstream 500" wMeetingJson wMeetingResponse (by decide) (by decide) (by decide)
    rfl rfl (by decide) rfl
  exact ⟨by decide, rfl, h.1, h.2⟩

/-- Counterexample to C8 as stated: with an upstream meeting body
missing every field, the meeting creator itself returns the all-None
dict without raising, but the combined-endpoint orchestrator does not
tolerate that partial data — it fails response-model validation and the
request returns HTTP 500 instead of the meeting record. -/
theorem partial_meeting_data_cex :
    (create_zoom_meeting envC8 "tok" "Marcus Chen" "2025-02-01T14:30:00Z" 30).1 =
      .ok ⟨none, none, none, none, none, none⟩ ∧
    (create_meeting envC8 reqC8).1 =
      .error ⟨500, "Unexpected error: validation error for MeetingResponse"⟩ ∧
    httpStatus (create_meeting envC8 reqC8).1 = 500 :=
  ⟨by decide, by decide, by decide⟩

/-- C8 amended: the meeting creator surfaces missing upstream fields as
None in its returned dict without raising; but the orchestrator rejects
such partial data — whenever join URL, password, start time, duration or
topic is absent, response-model construction fails and the combined
endpoint returns HTTP 500 (only a missing meeting identifier is
tolerated, stringified). -/
theorem meeting_partial_data_amended (env : Env) (mj : MeetingJson)
    (tok nm st : String) (du : Int) (hmj : env.meetingResult = .ok mj) :
    (create_zoom_meeting env tok nm st du).1 =
      .ok ⟨mj.join_url, mj.id, mj.password, mj.start_time, mj.duration, mj.topic⟩ ∧
    (∀ req : CreateMeetingRequest, ∀ iso tk : String,
      convert_time_to_iso8601 env.parse env.now req.start_time = .ok iso →
      (pyTruthy env.config.client_id && pyTruthy env.config.client_secret &&
        pyTruthy env.config.account_id) = true →
      env.tokenResult = .ok tk →
      (mj.join_url = none ∨ mj.password = none ∨ mj.start_time = none ∨
        mj.duration = none ∨ mj.topic = none) →
      (create_meeting env req).1 =
        .error ⟨500, "Unexpected error: validation error for MeetingResponse"⟩ ∧
      httpStatus (create_meeting env req).1 = 500) := by
  constructor
  · unfold create_zoom_meeting
    rw [hmj]
  · intro req iso tk hconv hcfg htk hmiss
    have hmk : mkMeetingResponse mj.join_url (pyStrOptInt mj.id) mj.password
        mj.start_time mj.duration mj.topic =
        .error "validation error for MeetingResponse" := by
      cases hju : mj.join_url <;> cases hpw : mj.password <;>
        cases hst2 : mj.start_time <;> cases hdu2 : mj.duration <;>
        cases htp : mj.topic <;> simp_all [mkMeetingResponse]
    have key : (create_meeting env req).1 =
        .error ⟨500, "Unexpected error: validation error for MeetingResponse"⟩ := by
      unfold create_meeting
      rw [hconv]
      simp only []
      have hg : get_zoom_access_token env = (.ok tk, [.tokenCall]) := by
        unfold get_zoom_access_token
        simp [hcfg, htk]
      rw [hg]
      simp only []
      have hcm : create_zoom_meeting env tk req.candidate_name iso req.duration =
          (.ok ⟨mj.join_url, mj.id, mj.password, mj.start_time, mj.duration,
            mj.topic⟩, [.meetingCall]) := by
        unfold create_zoom_meeting
        rw [hmj]
      rw [hcm]
      simp only []
      rw [hmk]
      rfl
    exact ⟨key, by rw [key]; rfl⟩

/-- Closed instance of `meeting_partial_data_amended` in the all-fields-
missing world. -/
theorem meeting_partial_data_amended_witness :
    envC8.meetingResult = .ok ⟨none, none, none, none, none, none⟩ ∧
    (create_meeting envC8 reqC8).1 =
      .error ⟨500, "Unexpected error: validation error for MeetingResponse"⟩ := by
  have h := meeting_partial_data_amended envC8 ⟨none, none, none, none, none, none⟩
    "tok" "Marcus Chen" "2025-02-01T14:30:00Z" 30 rfl
  exact ⟨rfl, (h.2 reqC8 "2025-02-01T14:30:00Z" "tok" (by decide) (by decide) rfl
    (Or.inl rfl)).1⟩
